import Mathlib

/-!
Shallow embedding of the itu-web-archive contributors pipeline.

The repository has two source files:
* `src/scripts/fetch-contributors.js` — the offline ContributorFetcher: it
  requests the GitHub contributors endpoint for `keepdying/itu-web-archive`,
  filters the records to account type "User", projects them to
  `{username, profileUrl}`, prepends a synthesized owner record when the
  owner is absent, and writes the artifact `contributors.json`; the whole
  body sits in a single try/catch whose catch logs the error and lets the
  script end normally.
* `src/components/Footer.tsx` — the FooterRenderer: on mount it fetches
  `<basePath>/contributors.json`, parses it and stores it in component
  state (initially the empty list, with no rejection handler), and renders
  the contributor list as links joined by ", " and the Turkish conjunction
  " ve ", followed by the suffix " hayratıdır.", or the fallback phrase
  "@keepdying hayratıdır" when the list is empty, always followed by the
  " - " separator and the static repository link.

Every definition below is a direct translation of one of these two files.
-/

namespace ItuArchive

/-- Contributor record as persisted in the artifact: the shape produced by
the fetcher's map step and consumed by the footer renderer
(`interface Contributor` in Footer.tsx). -/
structure Contributor where
  username : String
  profileUrl : String
deriving DecidableEq, Repr

/-- Record of the hosting provider's contributors endpoint, restricted to
the fields the fetcher reads: the account-type discriminator `type`, the
handle `login` and the profile URL `html_url`. -/
structure GithubRecord where
  type : String
  login : String
  html_url : String
deriving DecidableEq, Repr

/-- Hard-coded repository owner, `REPO_OWNER` in fetch-contributors.js. -/
def REPO_OWNER : String := "keepdying"

/-- Owner record synthesized by the fetcher when the owner is absent from
the filtered list: `{ username: REPO_OWNER, profileUrl:
"https://github.com/" + REPO_OWNER }`. -/
def ownerContributor : Contributor :=
  { username := REPO_OWNER, profileUrl := "https://github.com/" ++ REPO_OWNER }

/-- Projection of one provider record to the artifact shape: the map step
`contributor => ({ username: contributor.login, profileUrl:
contributor.html_url })`. -/
def formatRecord (r : GithubRecord) : Contributor :=
  { username := r.login, profileUrl := r.html_url }

/-- Filter-and-map pipeline of the fetcher, the `formattedContributors`
local of fetch-contributors.js: keep the records whose `type` is "User"
and project each to the Contributor shape. -/
def formattedContributors (resp : List GithubRecord) : List Contributor :=
  (resp.filter (fun r => r.type == "User")).map formatRecord

/-- Artifact computed by the fetcher from a parsed provider response. The
script computes `formattedContributors`, tests `ownerExists` with
`some(c => c.username === REPO_OWNER)` and, when the owner is absent,
prepends the synthesized owner record with `unshift`; the local
`formatted` is inlined here. -/
def fetchArtifact (resp : List GithubRecord) : List Contributor :=
  if (formattedContributors resp).any (fun c => c.username == REPO_OWNER) then
    formattedContributors resp
  else
    ownerContributor :: formattedContributors resp

/-- Failure one of the fetcher's steps 1-6 can raise: a rejected fetch, the
explicit throw on a non-2xx status, or a body that fails to parse as
JSON. -/
inductive FetchFailure where
  | network (msg : String)
  | httpStatus (status : Nat) (statusText : String)
  | parseError
deriving DecidableEq, Repr

/-- Provider response as the fetcher observes it: either the fetch promise
rejects, or an HTTP response arrives with a status, a status text and a
body that either parses as a record list or fails to parse. -/
inductive ProviderResponse where
  | networkError (msg : String)
  | httpResponse (status : Nat) (statusText : String)
      (body : Option (List GithubRecord))
deriving DecidableEq, Repr

/-- Boolean `response.ok` of the Fetch API: the status is in the 2xx
range. -/
def responseOk (status : Nat) : Bool :=
  200 ≤ status && status < 300

/-- Steps 1-6 of the fetcher: the request, the `if (!response.ok) throw`
status check, and the JSON parse of the body; yields the parsed record
list or the failure raised. -/
def fetchStep : ProviderResponse → Except FetchFailure (List GithubRecord)
  | .networkError msg => .error (.network msg)
  | .httpResponse status statusText body =>
    if !responseOk status then
      .error (.httpStatus status statusText)
    else
      match body with
      | some records => .ok records
      | none => .error .parseError

/-- Failure caught by the fetcher's single catch block: one of the step 1-6
failures, or a throw of `fs.writeFileSync`. -/
inductive RunFailure where
  | fetchFailure (f : FetchFailure)
  | writeFailure
deriving DecidableEq, Repr

/-- Observable outcome of one run of `fetchContributors`: either the
artifact was written, or an error — from any step, the filesystem write
included — was caught by the single try/catch and logged. -/
inductive RunOutcome where
  | wrote (artifact : List Contributor)
  | caught (failure : RunFailure)
deriving DecidableEq, Repr

/-- One run of `fetchContributors`: steps 1-6, then the artifact
computation, then the write, everything inside one try/catch;
`writeSucceeds` models whether `fs.writeFileSync` succeeds or throws. -/
def fetchContributorsRun (resp : ProviderResponse) (writeSucceeds : Bool) :
    RunOutcome :=
  match fetchStep resp with
  | .error f => .caught (.fetchFailure f)
  | .ok records =>
    if writeSucceeds then .wrote (fetchArtifact records)
    else .caught .writeFailure

/-- Process exit code of the script. The catch block swallows every error
(its comment reads "Exit successfully - existing file will be used") and
the script never calls process.exit, so both outcomes end the process
normally with code 0. -/
def runExitCode (resp : ProviderResponse) (writeSucceeds : Bool) : Nat :=
  match fetchContributorsRun resp writeSucceeds with
  | .wrote _ => 0
  | .caught _ => 0

/-- Artifact file content after a run, given the previous content: a run
that reaches the write and succeeds overwrites the file, a run whose error
was caught never executes `fs.writeFileSync` (or fails it) and leaves the
previous content in place. -/
def artifactAfterRun (prev : Option (List Contributor))
    (resp : ProviderResponse) (writeSucceeds : Bool) :
    Option (List Contributor) :=
  match fetchContributorsRun resp writeSucceeds with
  | .wrote a => some a
  | .caught _ => prev

/-- Rendered output element of the footer: a plain text run or a hyperlink
with its href and its label. -/
inductive Node where
  | text (s : String)
  | link (href : String) (label : String)
deriving DecidableEq, Repr

/-- One iteration of the JSX map inside `formatContributors`: the
contributor's link labeled `@username`, followed by the separator chosen
from the index — ", " between entries, " ve " before the last one, nothing
after the last entry. `n` is `contributors.length`, `i` the index. -/
def contributorFragment (n i : Nat) (c : Contributor) : List Node :=
  Node.link c.profileUrl ("@" ++ c.username) ::
    (if i < n - 1 then
      [Node.text (if i == n - 2 then " ve " else ", ")]
    else [])

/-- The `formatContributors` closure of Footer.tsx: the fallback phrase
"@keepdying hayratıdır" when the list is empty, otherwise the joined link
fragments followed by the text " hayratıdır.". -/
def formatContributors (contributors : List Contributor) : List Node :=
  if contributors.length == 0 then
    [Node.text "@keepdying hayratıdır"]
  else
    (contributors.enum.map
      (fun p => contributorFragment contributors.length p.1 p.2)).flatten
      ++ [Node.text " hayratıdır."]

/-- Footer body rendered by the component: the formatted contributors, the
" - " separator and the static link to the repository page. -/
def renderFooter (contributors : List Contributor) : List Node :=
  formatContributors contributors ++
    [Node.text " - ",
     Node.link "https://github.com/keepdying/itu-web-archive" "GitHub Repository"]

/-- Text content of one rendered node (a link contributes its label). -/
def nodeText : Node → String
  | .text s => s
  | .link _ label => label

/-- Concatenated text content of a rendered node list. -/
def renderedText (ns : List Node) : String :=
  ns.foldl (fun acc n => acc ++ nodeText n) ""

/-- Outcome of the footer's runtime request for the artifact as the effect
chain `fetch(...).then(res => res.json()).then(setContributors)` observes
it: the fetch promise either rejects or resolves to a response whose body
either parses as a contributor list or makes `res.json()` reject. The
component never inspects the HTTP status. -/
inductive ArtifactResponse where
  | networkError
  | response (status : Nat) (body : Option (List Contributor))
deriving DecidableEq, Repr

/-- Value delivered to `setContributors`, when any: `none` when the fetch
rejects or the body fails to parse, in which case no continuation runs and
the state keeps its initial value. -/
def artifactLoadResult : ArtifactResponse → Option (List Contributor)
  | .networkError => none
  | .response _ body => body

/-- Contributors state of the footer once the load effect has settled: the
parsed list on success, the initial empty list otherwise. -/
def footerContributorsState (r : ArtifactResponse) : List Contributor :=
  match artifactLoadResult r with
  | some cs => cs
  | none => []

/-- C7: for the empty contributor list the renderer emits exactly the
fallback phrase, then the separator, then the static repository link. -/
theorem c7_empty_renders_fallback :
    renderFooter [] =
      [Node.text "@keepdying hayratıdır",
       Node.text " - ",
       Node.link "https://github.com/keepdying/itu-web-archive"
         "GitHub Repository"] := by
  rfl

/-- C6: for the three-element list with usernames "a", "b", "c" the
renderer emits the three links joined by ", " and the localized
conjunction " ve ", then the attribution suffix, then the separator, then
the repository link; its text content is "@a, @b ve @c hayratıdır. -
GitHub Repository". -/
theorem c6_three_contributors_format :
    renderFooter
        [{ username := "a", profileUrl := "https://github.com/a" },
         { username := "b", profileUrl := "https://github.com/b" },
         { username := "c", profileUrl := "https://github.com/c" }] =
      [Node.link "https://github.com/a" "@a",
       Node.text ", ",
       Node.link "https://github.com/b" "@b",
       Node.text " ve ",
       Node.link "https://github.com/c" "@c",
       Node.text " hayratıdır.",
       Node.text " - ",
       Node.link "https://github.com/keepdying/itu-web-archive"
         "GitHub Repository"] ∧
    renderedText
        (renderFooter
          [{ username := "a", profileUrl := "https://github.com/a" },
           { username := "b", profileUrl := "https://github.com/b" },
           { username := "c", profileUrl := "https://github.com/c" }]) =
      "@a, @b ve @c hayratıdır. - GitHub Repository" := by
  exact ⟨rfl, rfl⟩

/-- C2: whenever the footer's artifact request fails — the fetch rejects or
the body fails to parse, as an HTTP 404 error page does — no state update
runs, the component stays in its initial empty state, and the rendered
output equals the empty-list output (fallback phrase, separator,
repository link); the total functions model that rendering throws
nothing. -/
theorem c2_failed_load_renders_fallback (r : ArtifactResponse)
    (h : artifactLoadResult r = none) :
    footerContributorsState r = [] ∧
    renderFooter (footerContributorsState r) = renderFooter [] := by
  have hs : footerContributorsState r = [] := by
    unfold footerContributorsState
    rw [h]
  exact ⟨hs, by rw [hs]⟩

/-- Witness for C2 at a concrete failing request: an HTTP 404 response
whose error-page body fails to parse as JSON. -/
theorem c2_failed_load_renders_fallback_witness :
    artifactLoadResult (.response 404 none) = none ∧
    renderFooter (footerContributorsState (.response 404 none)) =
      renderFooter [] :=
  ⟨rfl, (c2_failed_load_renders_fallback (.response 404 none) rfl).2⟩

/-- C5: whenever one of steps 1-6 fails — rejected fetch, non-2xx status,
or malformed body — the run ends as that failure caught by the try/catch,
the artifact is never written, and whatever artifact content existed
before the run is left unchanged. -/
theorem c5_step_failure_writes_nothing (resp : ProviderResponse)
    (w : Bool) (f : FetchFailure) (h : fetchStep resp = .error f) :
    fetchContributorsRun resp w = .caught (.fetchFailure f) ∧
    (∀ a, fetchContributorsRun resp w ≠ .wrote a) ∧
    ∀ prev, artifactAfterRun prev resp w = prev := by
  have hrun : fetchContributorsRun resp w = .caught (.fetchFailure f) := by
    unfold fetchContributorsRun
    rw [h]
  refine ⟨hrun, fun a hwrote => ?_, fun prev => ?_⟩
  · rw [hrun] at hwrote
    exact RunOutcome.noConfusion hwrote
  · unfold artifactAfterRun
    rw [hrun]

/-- Witness for C5 at a concrete failing run: a 404 from the provider, with
a write that would have succeeded. -/
theorem c5_step_failure_writes_nothing_witness :
    fetchStep (.httpResponse 404 "Not Found" none) =
      .error (.httpStatus 404 "Not Found") ∧
    artifactAfterRun (some [ownerContributor])
        (.httpResponse 404 "Not Found" none) true =
      some [ownerContributor] :=
  ⟨rfl,
   (c5_step_failure_writes_nothing (.httpResponse 404 "Not Found" none) true
     (.httpStatus 404 "Not Found") rfl).2.2 (some [ownerContributor])⟩

/-- C3 counterexample: a run with a successful provider response whose
artifact write throws is caught inside the fetcher by the same catch-all
handler, and the process ends with exit code 0 — contradicting the claim
that a write failure propagates uncaught as a non-zero, fatal outcome. -/
theorem c3_counterexample :
    fetchContributorsRun (.httpResponse 200 "OK" (some [])) false =
      .caught .writeFailure ∧
    runExitCode (.httpResponse 200 "OK" (some [])) false = 0 :=
  ⟨rfl, rfl⟩

/-- C3 amended: when writing the artifact file fails, the failure is
caught by the fetcher's catch-all try/catch like every other error; the
artifact is not written and the fetch step ends with a zero (success)
outcome instead of propagating the failure to its invoking process. -/
theorem c3_amended_write_failure_caught (resp : ProviderResponse) :
    runExitCode resp false = 0 ∧
    (∀ a, fetchContributorsRun resp false ≠ .wrote a) ∧
    ∀ prev, artifactAfterRun prev resp false = prev := by
  have hcaught : ∃ f, fetchContributorsRun resp false = .caught f := by
    unfold fetchContributorsRun
    cases h : fetchStep resp with
    | error f => exact ⟨.fetchFailure f, rfl⟩
    | ok records => exact ⟨.writeFailure, rfl⟩
  obtain ⟨f, hf⟩ := hcaught
  refine ⟨?_, fun a hwrote => ?_, fun prev => ?_⟩
  · unfold runExitCode
    rw [hf]
  · rw [hf] at hwrote
    exact RunOutcome.noConfusion hwrote
  · unfold artifactAfterRun
    rw [hf]

/-- Every member of the filter-and-map pipeline's output is the projection
of a response record of type "User". -/
theorem mem_formattedContributors {resp : List GithubRecord} {c : Contributor}
    (hc : c ∈ formattedContributors resp) :
    ∃ r, r ∈ resp ∧ r.type = "User" ∧ formatRecord r = c := by
  unfold formattedContributors at hc
  obtain ⟨r, hr, hfmt⟩ := List.mem_map.mp hc
  obtain ⟨hmem, htype⟩ := List.mem_filter.mp hr
  exact ⟨r, hmem, by simpa using htype, hfmt⟩

/-- When no record of type "User" carries the owner's login, the
`ownerExists` test of the fetcher comes out false. -/
theorem formattedContributors_any_owner_eq_false {resp : List GithubRecord}
    (h : ∀ r ∈ resp, r.type = "User" → r.login ≠ REPO_OWNER) :
    (formattedContributors resp).any (fun c => c.username == REPO_OWNER)
      = false := by
  rw [List.any_eq_false]
  intro c hc
  obtain ⟨r, hmem, htype, hfmt⟩ := mem_formattedContributors hc
  subst hfmt
  simpa [formatRecord] using h r hmem htype

/-- C1: when no human-user record of the provider response carries the
owner login, the fetcher's output starts with the synthesized owner
record, contains the owner username exactly once, and that record's
profileUrl is the provider base URL followed by "/" and the owner
identifier. -/
theorem c1_owner_prepended_once (resp : List GithubRecord)
    (h : ∀ r ∈ resp, r.type = "User" → r.login ≠ REPO_OWNER) :
    (fetchArtifact resp).head? = some ownerContributor ∧
    (fetchArtifact resp).countP (fun c => c.username == REPO_OWNER) = 1 ∧
    ownerContributor =
      { username := "keepdying",
        profileUrl := "https://github.com/keepdying" } := by
  have hany := formattedContributors_any_owner_eq_false h
  have hart : fetchArtifact resp =
      ownerContributor :: formattedContributors resp := by
    simp [fetchArtifact, hany]
  rw [hart]
  refine ⟨rfl, ?_, by decide⟩
  rw [List.countP_cons]
  have h0 : (formattedContributors resp).countP
      (fun c => c.username == REPO_OWNER) = 0 := by
    rw [List.countP_eq_zero]
    exact List.any_eq_false.mp hany
  rw [h0]
  simp [ownerContributor]

/-- Witness for C1 at a concrete response listing one human contributor
other than the owner. -/
theorem c1_owner_prepended_once_witness :
    (∀ r ∈ ([{ type := "User", login := "alice",
               html_url := "https://github.com/alice" }] : List GithubRecord),
        r.type = "User" → r.login ≠ REPO_OWNER) ∧
    (fetchArtifact
        [{ type := "User", login := "alice",
           html_url := "https://github.com/alice" }]).head? =
      some ownerContributor :=
  ⟨by decide,
   (c1_owner_prepended_once
      [{ type := "User", login := "alice",
         html_url := "https://github.com/alice" }] (by decide)).1⟩

/-- C8: when every record of the provider response has type "Bot", the
fetcher's output is exactly the one synthesized owner record. -/
theorem c8_all_bots_owner_only (resp : List GithubRecord)
    (h : ∀ r ∈ resp, r.type = "Bot") :
    fetchArtifact resp = [ownerContributor] := by
  have hfilter : resp.filter (fun r => r.type == "User") = [] := by
    rw [List.filter_eq_nil_iff]
    intro r hr
    rw [h r hr]
    decide
  have hfmt : formattedContributors resp = [] := by
    unfold formattedContributors
    rw [hfilter]
    rfl
  simp [fetchArtifact, hfmt]

/-- Witness for C8 at a concrete response made of two bot records. -/
theorem c8_all_bots_owner_only_witness :
    (∀ r ∈ ([{ type := "Bot", login := "dependabot", html_url := "d" },
             { type := "Bot", login := "actions", html_url := "a" }] :
        List GithubRecord), r.type = "Bot") ∧
    fetchArtifact
        [{ type := "Bot", login := "dependabot", html_url := "d" },
         { type := "Bot", login := "actions", html_url := "a" }] =
      [ownerContributor] :=
  ⟨by decide,
   c8_all_bots_owner_only
     [{ type := "Bot", login := "dependabot", html_url := "d" },
      { type := "Bot", login := "actions", html_url := "a" }] (by decide)⟩

/-- Artifact produced by the fetcher is never empty: either the owner was
found among the formatted records, so that list is nonempty, or the owner
record is prepended. -/
theorem fetchArtifact_length_pos (resp : List GithubRecord) :
    1 ≤ (fetchArtifact resp).length := by
  unfold fetchArtifact
  split
  · next hany =>
      have hne : formattedContributors resp ≠ [] := by
        intro hnil
        rw [hnil] at hany
        simp at hany
      exact List.length_pos.mpr hne
  · simp

/-- Rendering a nonempty contributor list never yields the fallback
phrase: the nonempty rendering ends with the suffix text node, the
fallback with a different text node. -/
theorem formatContributors_ne_fallback {l : List Contributor} (h : l ≠ []) :
    formatContributors l ≠ formatContributors [] := by
  intro heq
  have hlen : (l.length == 0) = false := by
    rw [beq_eq_false_iff_ne]
    simpa [List.length_eq_zero] using h
  have hfmt : formatContributors l =
      (l.enum.map (fun p => contributorFragment l.length p.1 p.2)).flatten
        ++ [Node.text " hayratıdır."] := by
    unfold formatContributors
    rw [hlen]
    rfl
  rw [hfmt] at heq
  have hlast := congrArg List.getLast? heq
  rw [List.getLast?_concat] at hlast
  have hrhs : (formatContributors []).getLast? =
      some (Node.text "@keepdying hayratıdır") := rfl
  rw [hrhs] at hlast
  exact absurd hlast (by decide)

/-- C9: round-trip of the two components — the artifact the fetcher
computes always has length at least one, and the renderer applied to it
never yields the fallback phrase (which is exactly the empty-list
rendering). -/
theorem c9_round_trip_not_fallback (resp : List GithubRecord) :
    1 ≤ (fetchArtifact resp).length ∧
    formatContributors (fetchArtifact resp) ≠ formatContributors [] ∧
    formatContributors [] = [Node.text "@keepdying hayratıdır"] := by
  have hlen := fetchArtifact_length_pos resp
  have hne : fetchArtifact resp ≠ [] := by
    intro hnil
    rw [hnil] at hlen
    simp at hlen
  exact ⟨hlen, formatContributors_ne_fallback hne, rfl⟩

/-- C10: the filtered human records form an order-preserving subsequence of
the provider response; the fetcher's output is that projection, either
unchanged or with the one synthesized owner record prepended; and the
projection of any subsequence of the filtered records is a subsequence of
the output, so no record is reordered, dropped or modified beyond the
filter, the projection and the owner prepend. -/
theorem c10_order_preserved (resp s : List GithubRecord)
    (hs : List.Sublist s (resp.filter (fun r => r.type == "User"))) :
    List.Sublist (resp.filter (fun r => r.type == "User")) resp ∧
    (fetchArtifact resp = formattedContributors resp ∨
      fetchArtifact resp = ownerContributor :: formattedContributors resp) ∧
    List.Sublist (s.map formatRecord) (fetchArtifact resp) := by
  have hdisj : fetchArtifact resp = formattedContributors resp ∨
      fetchArtifact resp = ownerContributor :: formattedContributors resp := by
    unfold fetchArtifact
    split
    · exact Or.inl rfl
    · exact Or.inr rfl
  refine ⟨List.filter_sublist resp, hdisj, ?_⟩
  have hsub : List.Sublist (s.map formatRecord)
      (formattedContributors resp) := by
    unfold formattedContributors
    exact hs.map formatRecord
  rcases hdisj with hd | hd
  · rw [hd]
    exact hsub
  · rw [hd]
    exact hsub.trans (List.sublist_cons_self _ _)

/-- Witness for C10: a response with one human record and one bot record,
taking the full filtered list as the subsequence. -/
theorem c10_order_preserved_witness :
    List.Sublist
        ([{ type := "User", login := "alice",
            html_url := "https://github.com/alice" }] : List GithubRecord)
        (([{ type := "User", login := "alice",
             html_url := "https://github.com/alice" },
           { type := "Bot", login := "dependabot", html_url := "d" }] :
            List GithubRecord).filter (fun r => r.type == "User")) ∧
    List.Sublist
        (([{ type := "User", login := "alice",
             html_url := "https://github.com/alice" }] :
            List GithubRecord).map formatRecord)
        (fetchArtifact
          [{ type := "User", login := "alice",
             html_url := "https://github.com/alice" },
           { type := "Bot", login := "dependabot", html_url := "d" }]) :=
  ⟨by decide,
   (c10_order_preserved
      [{ type := "User", login := "alice",
         html_url := "https://github.com/alice" },
       { type := "Bot", login := "dependabot", html_url := "d" }]
      [{ type := "User", login := "alice",
         html_url := "https://github.com/alice" }] (by decide)).2.2⟩

/-- C4 counterexample: the fetcher performs no deduplication beyond the
type filter, so a provider response repeating the login "a" on two
human-user records yields an artifact in which the username "a" appears
twice, not once. -/
theorem c4_counterexample :
    ¬ ∀ c ∈ fetchArtifact
        [{ type := "User", login := "a", html_url := "u1" },
         { type := "User", login := "a", html_url := "u2" }],
      (fetchArtifact
          [{ type := "User", login := "a", html_url := "u1" },
           { type := "User", login := "a", html_url := "u2" }]).countP
        (fun d => d.username == c.username) = 1 := by
  decide

/-- Lists of contributors with pairwise distinct usernames give count one
for the username of each of their members. -/
theorem countP_username_eq_one {l : List Contributor}
    (hp : List.Pairwise (fun a b => a.username ≠ b.username) l)
    {c : Contributor} (hc : c ∈ l) :
    l.countP (fun d => d.username == c.username) = 1 := by
  induction l with
  | nil => cases hc
  | cons a t ih =>
    obtain ⟨ha, ht⟩ := List.pairwise_cons.mp hp
    rw [List.countP_cons]
    rcases List.mem_cons.mp hc with rfl | hct
    · have h0 : t.countP (fun d => d.username == c.username) = 0 := by
        rw [List.countP_eq_zero]
        intro b hb
        simp only [beq_iff_eq]
        exact fun hbe => ha b hb hbe.symm
      simp [h0]
    · have h1 := ih ht hct
      have hne : a.username ≠ c.username := ha c hct
      rw [h1]
      simp [hne]

/-- When the filtered human records carry pairwise distinct logins, the
fetcher's artifact carries pairwise distinct usernames: the projection
maps logins to usernames one for one, and the owner record is prepended
only when its username is absent. -/
theorem fetchArtifact_pairwise_username {resp : List GithubRecord}
    (h : List.Pairwise (fun r t => r.login ≠ t.login)
      (resp.filter (fun r => r.type == "User"))) :
    List.Pairwise (fun a b => a.username ≠ b.username)
      (fetchArtifact resp) := by
  have hfmt : List.Pairwise (fun a b => a.username ≠ b.username)
      (formattedContributors resp) := by
    unfold formattedContributors
    exact List.Pairwise.map formatRecord (fun a b hab => hab) h
  unfold fetchArtifact
  split
  · exact hfmt
  · next hany =>
      have hfalse : (formattedContributors resp).any
          (fun c => c.username == REPO_OWNER) = false := by
        simpa using hany
      refine List.Pairwise.cons ?_ hfmt
      intro b hb
      have hb' := List.any_eq_false.mp hfalse b hb
      simp only [beq_iff_eq] at hb'
      intro he
      exact hb' (by simpa [ownerContributor] using he.symm)

/-- C4 amended: when the provider response's human-user records carry
pairwise distinct logins — as the provider's endpoint is relied on to
guarantee — the fetcher's output contains each username value exactly
once. -/
theorem c4_amended_distinct_logins (resp : List GithubRecord)
    (h : List.Pairwise (fun r t => r.login ≠ t.login)
      (resp.filter (fun r => r.type == "User"))) :
    ∀ c ∈ fetchArtifact resp,
      (fetchArtifact resp).countP (fun d => d.username == c.username) = 1 :=
  fun _c hc => countP_username_eq_one (fetchArtifact_pairwise_username h) hc

/-- Witness for the amended C4 at a concrete response with two distinct
human logins. -/
theorem c4_amended_distinct_logins_witness :
    List.Pairwise (fun r t => r.login ≠ t.login)
        (([{ type := "User", login := "alice", html_url := "ua" },
           { type := "User", login := "bob", html_url := "ub" }] :
            List GithubRecord).filter (fun r => r.type == "User")) ∧
    ∀ c ∈ fetchArtifact
        [{ type := "User", login := "alice", html_url := "ua" },
         { type := "User", login := "bob", html_url := "ub" }],
      (fetchArtifact
          [{ type := "User", login := "alice", html_url := "ua" },
           { type := "User", login := "bob", html_url := "ub" }]).countP
        (fun d => d.username == c.username) = 1 :=
  ⟨by decide,
   c4_amended_distinct_logins
     [{ type := "User", login := "alice", html_url := "ua" },
      { type := "User", login := "bob", html_url := "ub" }] (by decide)⟩

end ItuArchive
